import Mathlib

/-!
Verification development for the Dexter task-manager repository.

The Python sources are shallowly embedded: ORM rows become structures, the
relational store becomes explicit lists, each stateful operation becomes a
function that threads the store, and fallible operations return Except.
Status columns keep their source string values. Timestamps and fresh primary
keys, produced by the clock and the database, are passed as explicit
arguments. Monetary costs are rationals.
-/

namespace Dexter

/-! ## Data model (database/models.py) -/

/-- Row of the tasks table. status ranges over pending, active, complete,
archived; priority is the integer score computed at creation. -/
structure Task where
  id : Nat
  content : String
  status : String
  priority : Int
deriving DecidableEq, Repr

/-- Row of the micro_units table. status ranges over pending, active,
complete, skipped. -/
structure MicroUnit where
  id : Nat
  task_id : Nat
  description : String
  sequence_order : Int
  status : String
  estimated_minutes : Option Int := none
  actual_minutes : Option Int := none
  completed_at : Option Nat := none
deriving DecidableEq, Repr

/-- Row of the executions table. started_at is filled by the column default
at insert time; completed_at, success and notes come from the caller. -/
structure Execution where
  id : Nat
  micro_unit_id : Nat
  started_at : Nat
  completed_at : Option Nat
  success : Bool
  notes : Option String
deriving DecidableEq, Repr

/-- The committed contents of the relational store. Each TaskManager method
commits at its end, so between operations the store and the session agree. -/
structure Store where
  tasks : List Task
  micro_units : List MicroUnit
  executions : List Execution
deriving DecidableEq, Repr

/-- Primary-key lookup on micro_units, as session.get(MicroUnit, id). -/
def find_micro_unit (s : Store) (micro_unit_id : Nat) : Option MicroUnit :=
  s.micro_units.find? (fun u => u.id == micro_unit_id)

/-- Primary-key lookup on tasks (the join and the relationship both resolve
the foreign key task_id against this unique key). -/
def find_task (s : Store) (task_id : Nat) : Option Task :=
  s.tasks.find? (fun t => t.id == task_id)

/-! ## Ordering used by the scheduler queries

Both get_next_action and get_pending_tasks order by Task.priority descending
then MicroUnit.sequence_order ascending; that is the lexicographic order on
the pair (negated priority, sequence_order). -/

/-- The ORDER BY key of the scheduler queries. -/
def order_key (t : Task) (u : MicroUnit) : Int × Int :=
  (-t.priority, u.sequence_order)

/-- Strict lexicographic comparison of ORDER BY keys. -/
def lexLt (p q : Int × Int) : Prop :=
  p.1 < q.1 ∨ (p.1 = q.1 ∧ p.2 < q.2)

instance (p q : Int × Int) : Decidable (lexLt p q) := by
  unfold lexLt; infer_instance

theorem lexLt_irrefl (p : Int × Int) : ¬ lexLt p p := by
  rcases p with ⟨a, b⟩; simp [lexLt]

theorem lexLt_asymm {p q : Int × Int} (h : lexLt p q) : ¬ lexLt q p := by
  rcases p with ⟨a, b⟩; rcases q with ⟨c, d⟩
  simp only [lexLt] at *; omega

theorem lexLt_trans {p q r : Int × Int}
    (h1 : lexLt p q) (h2 : lexLt q r) : lexLt p r := by
  rcases p with ⟨a, b⟩; rcases q with ⟨c, d⟩; rcases r with ⟨e, f⟩
  simp only [lexLt] at *; omega

theorem not_lexLt_trans {p q r : Int × Int}
    (h1 : ¬ lexLt q p) (h2 : ¬ lexLt r q) : ¬ lexLt r p := by
  rcases p with ⟨a, b⟩; rcases q with ⟨c, d⟩; rcases r with ⟨e, f⟩
  simp only [lexLt, not_or, not_and, not_lt] at *; omega

/-- Task filter of the scheduler queries: Task.status IN (pending, active). -/
def task_eligible (t : Task) : Bool :=
  t.status == "pending" || t.status == "active"

/-- The rows produced by the query in get_next_action and get_pending_tasks:
micro-units with status pending joined to their owning task when that task is
pending or active, each paired with its ORDER BY key. -/
def eligible_rows (s : Store) : List (MicroUnit × (Int × Int)) :=
  s.micro_units.filterMap (fun u =>
    if u.status == "pending" then
      (find_task s u.task_id).bind (fun t =>
        if task_eligible t then some (u, order_key t u) else none)
    else none)

theorem mem_eligible_rows (s : Store) (u : MicroUnit) (k : Int × Int) :
    (u, k) ∈ eligible_rows s ↔
      u ∈ s.micro_units ∧ u.status = "pending" ∧
        ∃ t, find_task s u.task_id = some t ∧ task_eligible t = true ∧
          k = order_key t u := by
  unfold eligible_rows
  rw [List.mem_filterMap]
  constructor
  · rintro ⟨v, hv, hfv⟩
    by_cases hp : v.status == "pending"
    · rw [if_pos hp] at hfv
      cases hft : find_task s v.task_id with
      | none => rw [hft] at hfv; exact absurd hfv (by simp)
      | some t =>
        rw [hft, Option.some_bind] at hfv
        by_cases he : task_eligible t
        · rw [if_pos he] at hfv
          have hpair : (v, order_key t v) = (u, k) := Option.some.inj hfv
          have hvu : v = u := congrArg Prod.fst hpair
          have hk : order_key t v = k := congrArg Prod.snd hpair
          subst hvu
          exact ⟨hv, by simpa using hp, t, hft, he, hk.symm⟩
        · rw [if_neg he] at hfv; exact absurd hfv (by simp)
    · rw [if_neg hp] at hfv; exact absurd hfv (by simp)
  · rintro ⟨hu, hp, t, hft, he, hk⟩
    refine ⟨u, hu, ?_⟩
    rw [if_pos (by simpa using hp), hft, Option.some_bind, if_pos he, hk]

/-- Running minimum underlying the ORDER BY plus first() of the queries:
the current best row is replaced only by a strictly smaller key, so the
first row with minimal key wins. -/
def min_row_aux (x : MicroUnit × (Int × Int)) :
    List (MicroUnit × (Int × Int)) → MicroUnit × (Int × Int)
  | [] => x
  | y :: ys => if lexLt y.2 x.2 then min_row_aux y ys else min_row_aux x ys

/-- ORDER BY plus first(): the first row carrying a minimal key, or none. -/
def min_row : List (MicroUnit × (Int × Int)) →
    Option (MicroUnit × (Int × Int))
  | [] => none
  | x :: xs => some (min_row_aux x xs)

theorem min_row_aux_mem (x : MicroUnit × (Int × Int))
    (l : List (MicroUnit × (Int × Int))) :
    min_row_aux x l = x ∨ min_row_aux x l ∈ l := by
  induction l generalizing x with
  | nil => left; rfl
  | cons y ys ih =>
    by_cases hlt : lexLt y.2 x.2
    · rw [min_row_aux, if_pos hlt]
      rcases ih y with h | h
      · right; rw [h]; exact List.mem_cons_self y ys
      · right; exact List.mem_cons_of_mem y h
    · rw [min_row_aux, if_neg hlt]
      rcases ih x with h | h
      · left; exact h
      · right; exact List.mem_cons_of_mem y h

theorem min_row_aux_minimal (x : MicroUnit × (Int × Int))
    (l : List (MicroUnit × (Int × Int))) :
    ¬ lexLt x.2 (min_row_aux x l).2 ∧
      ∀ y ∈ l, ¬ lexLt y.2 (min_row_aux x l).2 := by
  induction l generalizing x with
  | nil => exact ⟨lexLt_irrefl _, by simp⟩
  | cons y ys ih =>
    by_cases hlt : lexLt y.2 x.2
    · rw [min_row_aux, if_pos hlt]
      obtain ⟨h1, h2⟩ := ih y
      refine ⟨?_, ?_⟩
      · intro hx
        exact h1 (lexLt_trans hlt hx)
      · intro z hz
        rcases List.mem_cons.mp hz with hz | hz
        · subst hz; exact h1
        · exact h2 z hz
    · rw [min_row_aux, if_neg hlt]
      obtain ⟨h1, h2⟩ := ih x
      refine ⟨h1, ?_⟩
      intro z hz
      rcases List.mem_cons.mp hz with hz | hz
      · subst hz; exact not_lexLt_trans h1 hlt
      · exact h2 z hz

theorem min_row_eq_none_iff (l : List (MicroUnit × (Int × Int))) :
    min_row l = none ↔ l = [] := by
  cases l with
  | nil => simp [min_row]
  | cons x xs => simp [min_row]

theorem min_row_mem {l : List (MicroUnit × (Int × Int))}
    {x : MicroUnit × (Int × Int)} (h : min_row l = some x) : x ∈ l := by
  cases l with
  | nil => exact absurd h (by simp [min_row])
  | cons a as =>
    rw [min_row] at h
    have hx : min_row_aux a as = x := Option.some.inj h
    rcases min_row_aux_mem a as with hm | hm
    · rw [hx] at hm; rw [← hm]; exact List.mem_cons_self x as
    · rw [hx] at hm; exact List.mem_cons_of_mem a hm

theorem min_row_minimal {l : List (MicroUnit × (Int × Int))}
    {x : MicroUnit × (Int × Int)} (h : min_row l = some x) :
    ∀ y ∈ l, ¬ lexLt y.2 x.2 := by
  cases l with
  | nil => exact absurd h (by simp [min_row])
  | cons a as =>
    rw [min_row] at h
    have hx : min_row_aux a as = x := Option.some.inj h
    obtain ⟨h1, h2⟩ := min_row_aux_minimal a as
    intro z hz
    rcases List.mem_cons.mp hz with hz | hz
    · subst hz; rw [← hx]; exact h1
    · rw [← hx]; exact h2 z hz

/-! ## TaskManager.get_next_action (task_manager.py lines 59-76)

Read-only selection: the query filters pending micro-units whose owning task
is pending or active, orders by priority descending then sequence_order
ascending, and takes the first row; no status is written. The store is
returned unchanged to make the absence of writes part of the embedding. -/

def get_next_action (s : Store) : Option MicroUnit × Store :=
  ((min_row (eligible_rows s)).map Prod.fst, s)

/-! ## TaskManager.start_micro_unit (task_manager.py lines 78-96)

The two False-returning branches are distinguished in the source by their
log lines (micro-unit not found / micro-unit not pending); they are modelled
as the two error values of the scheduler error taxonomy. -/

inductive StartError
  | notFound
  | invalidState
deriving DecidableEq, Repr

/-- The committed write of a successful start: the unit becomes active and
so does its owning task, in the same commit. -/
def start_update (s : Store) (micro_unit_id : Nat) (u : MicroUnit) : Store :=
  { s with
    micro_units := s.micro_units.map (fun v =>
      if v.id == micro_unit_id then { v with status := "active" } else v)
    tasks := s.tasks.map (fun t =>
      if t.id == u.task_id then { t with status := "active" } else t) }

def start_micro_unit (s : Store) (micro_unit_id : Nat) :
    Except StartError Unit × Store :=
  match find_micro_unit s micro_unit_id with
  | none => (Except.error StartError.notFound, s)
  | some u =>
    if u.status != "pending" then (Except.error StartError.invalidState, s)
    else (Except.ok (), start_update s micro_unit_id u)

/-! ## TaskManager.complete_micro_unit (task_manager.py lines 98-132) -/

/-- MicroUnit.mark_complete (models.py lines 43-47). Python truthiness: the
actual_minutes argument is stored only when provided and nonzero. -/
def mark_complete (u : MicroUnit) (now : Nat) (actual_minutes : Option Int) :
    MicroUnit :=
  { u with
    status := "complete"
    completed_at := some now
    actual_minutes :=
      match actual_minutes with
      | some m => if m == 0 then u.actual_minutes else some m
      | none => u.actual_minutes }

/-- The committed write of a completion call that found its unit: the unit
is marked complete, one Execution row is appended, and the task is cascaded
to complete only when the stale pending count is zero. -/
def complete_update (s : Store) (micro_unit_id : Nat) (u : MicroUnit)
    (success : Bool) (actual_minutes : Option Int) (notes : Option String)
    (now exec_id : Nat) : Store :=
  let remaining_units := s.micro_units.countP (fun v =>
    v.task_id == u.task_id && v.status == "pending")
  { tasks :=
      if remaining_units == 0 then
        s.tasks.map (fun t =>
          if t.id == u.task_id then { t with status := "complete" } else t)
      else s.tasks
    micro_units := s.micro_units.map (fun v =>
      if v.id == micro_unit_id then mark_complete v now actual_minutes else v)
    executions := s.executions ++
      [{ id := exec_id, micro_unit_id := micro_unit_id, started_at := now,
         completed_at := some now, success := success, notes := notes }] }

/-- complete_micro_unit. The session is built with autoflush disabled
(database.py line 17: sessionmaker(autocommit=False, autoflush=False, ...)),
so the remaining-pending COUNT query between the in-memory unit update and
the commit is answered from the committed store s: it still sees the unit
being completed under its old status. now models datetime.now(), exec_id the
primary key the insert will receive. An unknown id returns with no change. -/
def complete_micro_unit (s : Store) (micro_unit_id : Nat) (success : Bool)
    (actual_minutes : Option Int) (notes : Option String) (now exec_id : Nat) :
    Store :=
  match find_micro_unit s micro_unit_id with
  | none => s
  | some u =>
    complete_update s micro_unit_id u success actual_minutes notes now exec_id

/-! ## TaskManager.process_dump_with_cost (task_manager.py lines 134-177) -/

/-- One task candidate from the parse step of the decomposition oracle. -/
structure TaskData where
  content : String
  category : Option String := none
deriving DecidableEq, Repr

/-- Python exception surfacing in the embedding. -/
inductive PyError
  | attributeError (missing : String)
deriving DecidableEq, Repr

/-- Per-task entry of the results dictionary. -/
structure TaskSummary where
  task_id : Nat
  content_preview : String
  micro_units : Nat
  priority : Int
deriving DecidableEq, Repr

/-- The results dictionary returned by the dump processor. -/
structure DumpResults where
  new_tasks : Nat
  merged_tasks : Nat
  total_micro_units : Nat
  tasks_created : List TaskSummary
deriving DecidableEq, Repr

/-- The method names defined in class TaskManager (task_manager.py). -/
def task_manager_method_names : List String :=
  ["__init__", "process_dump", "get_next_action", "start_micro_unit",
   "complete_micro_unit", "process_dump_with_cost",
   "_find_similar_existing_tasks", "_create_task", "_decompose_task", "close"]

/-- process_dump_with_cost. The oracle parse step is an input: parsed is the
candidate list and parse_cost its charged cost. On an empty parse the loop
body never runs and the zeroed results dictionary is committed. On a
nonempty parse the first iteration performs the read-only similar-task
lookup and then evaluates self._create_task_with_cost(task_data); class
TaskManager defines no attribute of that name (task_manager_method_names),
so the lookup raises AttributeError before any Task or MicroUnit is added
to the session and before the final commit: the store is unchanged. -/
def process_dump_with_cost (s : Store) (parsed : List TaskData)
    (parse_cost : Rat) : Except PyError (DumpResults × Rat) × Store :=
  match parsed with
  | [] =>
    (Except.ok ({ new_tasks := 0, merged_tasks := 0, total_micro_units := 0,
                  tasks_created := [] }, parse_cost), s)
  | _ :: _ =>
    (Except.error (PyError.attributeError "_create_task_with_cost"), s)

/-! ## Generic lemma: find? after an id-preserving map update -/

theorem find?_map_ite {α : Type} (p : α → Bool) (f : α → α) (l : List α)
    (hp : ∀ x, p x = true → p (f x) = true) :
    (l.map (fun v => if p v then f v else v)).find? p = (l.find? p).map f := by
  induction l with
  | nil => simp
  | cons a as ih =>
    by_cases ha : p a
    · simp only [List.map_cons, if_pos ha]
      rw [List.find?_cons_of_pos _ (hp a ha), List.find?_cons_of_pos _ ha]
      simp
    · simp only [List.map_cons, if_neg ha]
      rw [List.find?_cons_of_neg _ (by simpa using ha),
        List.find?_cons_of_neg _ (by simpa using ha)]
      exact ih

/-! ## MD5 (hashlib.md5(text.encode()).hexdigest(), used by get_text_hash)

Executable embedding of MD5 over the UTF-8 bytes of the input, so that the
content-addressed cache keys of telegram.py are the real digests. All
arithmetic is Nat modulo two to the thirty-two. -/

/-- UTF-8 encoding of one code point (text.encode()). -/
def utf8Char (c : Char) : List Nat :=
  let n := c.toNat
  if n < 0x80 then [n]
  else if n < 0x800 then
    [0xC0 ||| (n >>> 6), 0x80 ||| (n &&& 0x3F)]
  else if n < 0x10000 then
    [0xE0 ||| (n >>> 12), 0x80 ||| ((n >>> 6) &&& 0x3F), 0x80 ||| (n &&& 0x3F)]
  else
    [0xF0 ||| (n >>> 18), 0x80 ||| ((n >>> 12) &&& 0x3F),
     0x80 ||| ((n >>> 6) &&& 0x3F), 0x80 ||| (n &&& 0x3F)]

/-- UTF-8 bytes of a string. -/
def utf8Bytes (s : String) : List Nat :=
  s.data.flatMap utf8Char

/-- The 64 MD5 sine-derived round constants. -/
def md5K : List Nat :=
  [0xd76aa478, 0xe8c7b756, 0x242070db, 0xc1bdceee,
   0xf57c0faf, 0x4787c62a, 0xa8304613, 0xfd469501,
   0x698098d8, 0x8b44f7af, 0xffff5bb1, 0x895cd7be,
   0x6b901122, 0xfd987193, 0xa679438e, 0x49b40821,
   0xf61e2562, 0xc040b340, 0x265e5a51, 0xe9b6c7aa,
   0xd62f105d, 0x02441453, 0xd8a1e681, 0xe7d3fbc8,
   0x21e1cde6, 0xc33707d6, 0xf4d50d87, 0x455a14ed,
   0xa9e3e905, 0xfcefa3f8, 0x676f02d9, 0x8d2a4c8a,
   0xfffa3942, 0x8771f681, 0x6d9d6122, 0xfde5380c,
   0xa4beea44, 0x4bdecfa9, 0xf6bb4b60, 0xbebfbc70,
   0x289b7ec6, 0xeaa127fa, 0xd4ef3085, 0x04881d05,
   0xd9d4d039, 0xe6db99e5, 0x1fa27cf8, 0xc4ac5665,
   0xf4292244, 0x432aff97, 0xab9423a7, 0xfc93a039,
   0x655b59c3, 0x8f0ccc92, 0xffeff47d, 0x85845dd1,
   0x6fa87e4f, 0xfe2ce6e0, 0xa3014314, 0x4e0811a1,
   0xf7537e82, 0xbd3af235, 0x2ad7d2bb, 0xeb86d391]

/-- The 64 MD5 per-round left-rotation amounts. -/
def md5S : List Nat :=
  [7, 12, 17, 22, 7, 12, 17, 22, 7, 12, 17, 22, 7, 12, 17, 22,
   5, 9, 14, 20, 5, 9, 14, 20, 5, 9, 14, 20, 5, 9, 14, 20,
   4, 11, 16, 23, 4, 11, 16, 23, 4, 11, 16, 23, 4, 11, 16, 23,
   6, 10, 15, 21, 6, 10, 15, 21, 6, 10, 15, 21, 6, 10, 15, 21]

/-- Rotate a 32-bit word left by c. -/
def rotl32 (x c : Nat) : Nat :=
  ((x <<< c) ||| (x >>> (32 - c))) % 2 ^ 32

/-- Bitwise complement on 32-bit words. -/
def not32 (x : Nat) : Nat := x ^^^ 0xFFFFFFFF

/-- k little-endian bytes of n. -/
def toLEBytes : Nat → Nat → List Nat
  | 0, _ => []
  | k + 1, n => n % 256 :: toLEBytes k (n / 256)

/-- MD5 padding: append 0x80, zero-fill to 56 mod 64, then the bit length
as eight little-endian bytes. -/
def md5pad (msg : List Nat) : List Nat :=
  msg ++ [0x80] ++ List.replicate ((119 - msg.length % 64) % 64) 0
      ++ toLEBytes 8 (msg.length * 8 % 2 ^ 64)

/-- Group padded bytes into 32-bit little-endian words. -/
def wordsOf : List Nat → List Nat
  | b0 :: b1 :: b2 :: b3 :: rest =>
      (b0 + b1 * 256 + b2 * 65536 + b3 * 16777216) :: wordsOf rest
  | _ => []

/-- Group the word stream into 16-word blocks (fuel keeps the recursion
structural so the kernel can evaluate it). -/
def chunks16Aux : Nat → List Nat → List (List Nat)
  | 0, _ => []
  | _, [] => []
  | fuel + 1, w :: ws => (w :: ws.take 15) :: chunks16Aux fuel (ws.drop 15)

def chunks16 (l : List Nat) : List (List Nat) := chunks16Aux l.length l

/-- One MD5 round i on state (a, b, c, d) for message words M. -/
def md5step (M : List Nat) (st : Nat × Nat × Nat × Nat) (i : Nat) :
    Nat × Nat × Nat × Nat :=
  let (a, b, c, d) := st
  let f :=
    if i < 16 then (b &&& c) ||| (not32 b &&& d)
    else if i < 32 then (d &&& b) ||| (not32 d &&& c)
    else if i < 48 then b ^^^ c ^^^ d
    else c ^^^ (b ||| not32 d)
  let g :=
    if i < 16 then i
    else if i < 32 then (5 * i + 1) % 16
    else if i < 48 then (3 * i + 5) % 16
    else (7 * i) % 16
  let tmp := (f + a + md5K.getD i 0 + M.getD g 0) % 2 ^ 32
  (d, (b + rotl32 tmp (md5S.getD i 0)) % 2 ^ 32, b, c)

/-- Process one 16-word block. -/
def md5block (st : Nat × Nat × Nat × Nat) (M : List Nat) :
    Nat × Nat × Nat × Nat :=
  let (a0, b0, c0, d0) := st
  let (a, b, c, d) := (List.range 64).foldl (md5step M) (a0, b0, c0, d0)
  ((a0 + a) % 2 ^ 32, (b0 + b) % 2 ^ 32, (c0 + c) % 2 ^ 32, (d0 + d) % 2 ^ 32)

/-- Lowercase hex digit. -/
def hexDigitChar (n : Nat) : Char :=
  if n < 10 then Char.ofNat (48 + n) else Char.ofNat (87 + n)

/-- Two lowercase hex characters of one byte. -/
def byteToHex (b : Nat) : List Char := [hexDigitChar (b / 16), hexDigitChar (b % 16)]

/-- The full MD5 hex digest of a string. -/
def md5hex (s : String) : String :=
  let blocks := chunks16 (wordsOf (md5pad (utf8Bytes s)))
  let (a, b, c, d) :=
    blocks.foldl md5block (0x67452301, 0xefcdab89, 0x98badcfe, 0x10325476)
  ((toLEBytes 4 a ++ toLEBytes 4 b ++ toLEBytes 4 c ++ toLEBytes 4 d).flatMap
    byteToHex).asString

/-- The embedding reproduces the reference digests of RFC 1321. -/
theorem md5hex_reference_vectors :
    md5hex "" = "d41d8cd98f00b204e9800998ecf8427e" ∧
    md5hex "abc" = "900150983cd24fb0d6963f7d28e17f72" := by
  constructor <;> decide

/-! ## TelegramBot text handling (telegram.py) -/

/-- Python regex class backslash-s restricted to the ASCII whitespace
characters (the inputs of interest are ASCII). -/
def py_isspace (c : Char) : Bool :=
  c == ' ' || c == '\t' || c == '\n' || c == '\r' || c == '\x0b' || c == '\x0c'

/-- Split a character list at separator characters; n separators yield
n plus one fields, empty fields included, as re/str splitting does. -/
def split_fields (p : Char → Bool) : List Char → List (List Char)
  | [] => [[]]
  | c :: cs =>
    match split_fields p cs with
    | [] => [[]]
    | w :: ws => if p c then [] :: w :: ws else (c :: w) :: ws

/-- preprocess_text (telegram.py lines 39-45): drop every character outside
letters, dot, comma and whitespace, then collapse whitespace runs to single
spaces and strip the ends. -/
def preprocess_text (text : String) : String :=
  let kept := text.data.filter (fun c =>
    c.isAlpha || c == '.' || c == ',' || py_isspace c)
  let fields := (split_fields py_isspace kept).filter (fun w => !w.isEmpty)
  " ".intercalate (fields.map List.asString)

/-- get_text_hash (telegram.py lines 47-49): the MD5 hex digest of the
argument; the caller chooses whether the argument is preprocessed. -/
def get_text_hash (text : String) : String := md5hex text

/-- The decomposition-cache key as computed in process_dump (telegram.py
line 249): the digest of the raw dump text. -/
def dump_cache_key (dump_text : String) : String := get_text_hash dump_text

/-- The synthesis-cache key as computed in send_voice_message (telegram.py
lines 71-78): the digest of the preprocessed text. -/
def tts_cache_key (text : String) : String :=
  get_text_hash (preprocess_text text)

/-! ## TelegramBot state and effects (telegram.py) -/

/-- Python dict lookup on a key-ordered association list. -/
def cache_lookup {α : Type} (cache : List (String × α)) (k : String) :
    Option α :=
  (cache.find? (fun e => e.1 == k)).map Prod.snd

/-- Python dict assignment: overwrite the entry if the key is present,
append it otherwise. -/
def cache_insert {α : Type} (cache : List (String × α)) (k : String)
    (v : α) : List (String × α) :=
  if (cache.find? (fun e => e.1 == k)).isSome then
    cache.map (fun e => if e.1 == k then (k, v) else e)
  else cache ++ [(k, v)]

/-- tts_cache: preprocessed-text digest to mp3 path. -/
abbrev TTSCache := List (String × String)

/-- dump_cache: raw-dump digest to results dictionary. -/
abbrev DumpCache := List (String × DumpResults)

/-- The per-bot mutable state: the relational store reached through
task_manager.session plus the in-process dictionaries of the bot object. -/
structure BotState where
  store : Store
  user_states : List (Int × String)
  tts_cache : TTSCache
  dump_cache : DumpCache
deriving DecidableEq, Repr

/-- The external world of one message-handling step: filesystem probe and
voice delivery used by send_voice_message, plus the clock value and the next
Execution primary key the database would hand out. -/
structure Env where
  file_exists : String → Bool
  deliver_ok : String → Bool
  now : Nat
  next_exec_id : Nat

/-- The decomposition oracle interface: parse a dump into candidates plus
the charged cost (common/openai.py parse_task_dump_with_cost). -/
structure Oracle where
  parse_task_dump : String → List TaskData × Rat

/-- Observable output of one handling step: each text handed to
send_voice_message with the openai_cost reported in its caption, and how
often the parse oracle was invoked. -/
structure StepOut where
  sends : List (String × Rat)
  parse_calls : Nat
deriving DecidableEq, Repr

/-- The method names defined in class FishClient (fish.py). -/
def fish_client_method_names : List String :=
  ["__init__", "calculate_cost", "text_to_mp3"]

/-- The attribute access self.fish.text_to_mp3_with_cost of telegram.py line
86: class FishClient defines no such attribute (fish_client_method_names),
so evaluating the call raises AttributeError; the branch that would return a
path and a cost is dead. -/
def fish_text_to_mp3_with_cost (_clean_text : String) :
    Except PyError (String × Rat) :=
  Except.error (PyError.attributeError "text_to_mp3_with_cost")

/-- send_voice_message (telegram.py lines 67-106). The body is wrapped in a
try/except that returns False on any exception. Empty cleaned text returns
False before the cache is consulted. A cache hit requires both a dictionary
entry and an existing file; on a hit, delivery is attempted from the cached
path. On a miss the code calls fish_text_to_mp3_with_cost, whose
AttributeError is caught and yields False before the cache assignment; the
assignment and the delivery of the fresh path are the dead ok-branch. -/
def send_voice_message (env : Env) (tts_cache : TTSCache) (text : String) :
    Bool × TTSCache :=
  let clean_text := preprocess_text text
  if clean_text == "" then (false, tts_cache)
  else
    let text_hash := get_text_hash clean_text
    match cache_lookup tts_cache text_hash with
    | some mp3_path =>
      if env.file_exists mp3_path then (env.deliver_ok mp3_path, tts_cache)
      else
        match fish_text_to_mp3_with_cost clean_text with
        | Except.error _ => (false, tts_cache)
        | Except.ok r =>
          (env.deliver_ok r.1, cache_insert tts_cache text_hash r.1)
    | none =>
      match fish_text_to_mp3_with_cost clean_text with
      | Except.error _ => (false, tts_cache)
      | Except.ok r =>
        (env.deliver_ok r.1, cache_insert tts_cache text_hash r.1)

/-- Apply one send_voice_message call to the bot state, recording the text
and the openai_cost of its caption; every call site of the source discards
the boolean. -/
def send_voice (env : Env) (st : BotState) (text : String)
    (openai_cost : Rat) : BotState × (String × Rat) :=
  let r := send_voice_message env st.tts_cache text
  ({ st with tts_cache := r.2 }, (text, openai_cost))

/-- user_states.get(user_id): dict lookup keyed by the sender identity. -/
def state_lookup (states : List (Int × String)) (user_id : Int) :
    Option String :=
  (states.find? (fun e => e.1 == user_id)).map Prod.snd

/-- user_states.pop(user_id, None). -/
def pop_state (st : BotState) (user_id : Int) : BotState :=
  { st with user_states := st.user_states.filter (fun e => e.1 != user_id) }

/-- user_states[user_id] = state. -/
def set_state (st : BotState) (user_id : Int) (state : String) : BotState :=
  { st with user_states :=
      (st.user_states.filter (fun e => e.1 != user_id)) ++ [(user_id, state)] }

/-- Stable insertion into a key-sorted row list (ascending lexLt). -/
def insert_row (x : MicroUnit × (Int × Int)) :
    List (MicroUnit × (Int × Int)) → List (MicroUnit × (Int × Int))
  | [] => [x]
  | y :: ys => if lexLt y.2 x.2 then y :: insert_row x ys else x :: y :: ys

/-- Stable sort of the query rows by the ORDER BY key. -/
def sort_rows : List (MicroUnit × (Int × Int)) →
    List (MicroUnit × (Int × Int))
  | [] => []
  | x :: xs => insert_row x (sort_rows xs)

/-- get_pending_tasks (telegram.py lines 127-138): the same query as
get_next_action but returning the whole ordered row list. -/
def get_pending_tasks (s : Store) : List MicroUnit :=
  (sort_rows (eligible_rows s)).map Prod.fst

/-- Python str.split(None, 1) for a text already known to start with a
slash: the first whitespace-delimited token, and the remainder with its
leading whitespace removed. -/
def py_split_first (text : String) : String × String :=
  let chars := text.data.dropWhile py_isspace
  let tok := chars.takeWhile (fun c => !py_isspace c)
  let rest := (chars.dropWhile (fun c => !py_isspace c)).dropWhile py_isspace
  (tok.asString, rest.asString)

/-- Python str.lower restricted to ASCII. -/
def py_lower (s : String) : String := (s.data.map Char.toLower).asString

/-- Python str.isdigit for ASCII digit strings. -/
def py_isdigit (s : String) : Bool :=
  !(s == "") && s.data.all Char.isDigit

/-- Python int() on a digit string. -/
def py_int (s : String) : Nat :=
  s.data.foldl (fun n c => n * 10 + (c.toNat - 48)) 0

/-! ## TelegramBot command handlers (telegram.py lines 140-285) -/

/-- handle_dump_command: record the waiting_for_dump state, then prompt. -/
def handle_dump_command (env : Env) (st : BotState) (user_id : Int) :
    BotState × StepOut :=
  let st := set_state st user_id "waiting_for_dump"
  let r := send_voice env st "Send me your task dump" 0
  (r.1, { sends := [r.2], parse_calls := 0 })

/-- handle_tasks_command with limit None: speak every pending description
joined by dots, or report none pending. -/
def handle_tasks_command (env : Env) (st : BotState) : BotState × StepOut :=
  let pending_units := get_pending_tasks st.store
  match pending_units with
  | [] =>
    let r := send_voice env st "No pending tasks" 0
    (r.1, { sends := [r.2], parse_calls := 0 })
  | _ =>
    let task_text := ". ".intercalate (pending_units.map
      (fun u => u.description))
    let r := send_voice env st task_text 0
    (r.1, { sends := [r.2], parse_calls := 0 })

/-- handle_task_command: speak the first count pending descriptions. -/
def handle_task_command (env : Env) (st : BotState) (count : Nat) :
    BotState × StepOut :=
  let pending_units := get_pending_tasks st.store
  match pending_units with
  | [] =>
    let r := send_voice env st "No pending tasks" 0
    (r.1, { sends := [r.2], parse_calls := 0 })
  | _ =>
    let task_text := ". ".intercalate ((pending_units.take count).map
      (fun u => u.description))
    let r := send_voice env st task_text 0
    (r.1, { sends := [r.2], parse_calls := 0 })

/-- handle_done_command: complete the first pending unit with success=True
and no notes, then speak the new first pending description or report that
none remain. -/
def handle_done_command (env : Env) (st : BotState) : BotState × StepOut :=
  let pending_units := get_pending_tasks st.store
  match pending_units with
  | [] =>
    let r := send_voice env st "No tasks to complete" 0
    (r.1, { sends := [r.2], parse_calls := 0 })
  | first_task :: _ =>
    let store := complete_micro_unit st.store first_task.id true none none
      env.now env.next_exec_id
    let st := { st with store := store }
    match get_pending_tasks store with
    | [] =>
      let r := send_voice env st "No more tasks" 0
      (r.1, { sends := [r.2], parse_calls := 0 })
    | next :: _ =>
      let r := send_voice env st next.description 0
      (r.1, { sends := [r.2], parse_calls := 0 })

/-- handle_clear_command: delete all executions, micro-units and tasks in
one transaction, then confirm. -/
def handle_clear_command (env : Env) (st : BotState) : BotState × StepOut :=
  let cleared : Store := { tasks := [], micro_units := [], executions := [] }
  let st := { st with store := cleared }
  let r := send_voice env st "All tasks cleared" 0
  (r.1, { sends := [r.2], parse_calls := 0 })

/-- handle_tts_command: record the waiting_for_tts state; no response. -/
def handle_tts_command (st : BotState) (user_id : Int) : BotState × StepOut :=
  (set_state st user_id "waiting_for_tts", { sends := [], parse_calls := 0 })

/-- The completion utterance of process_dump. -/
def dump_summary_text (results : DumpResults) : String :=
  "Created " ++ toString results.new_tasks ++ " tasks with " ++
    toString results.total_micro_units ++ " units"

/-- TelegramBot.process_dump (telegram.py lines 245-275). The cache key is
the digest of the raw dump text. On a hit the dump-processor pipeline is
skipped and the cached results are reported with zero openai cost. On a
miss the parse oracle and process_dump_with_cost run; success stores the
results in the cache and reports them, while the AttributeError raised on a
nonempty parse is caught by the except branch, which sends an error
utterance and leaves the cache untouched. The finally block clears the user
state in every branch. -/
def telegram_process_dump (env : Env) (oracle : Oracle) (st : BotState)
    (user_id : Int) (dump_text : String) : BotState × StepOut :=
  let dump_hash := get_text_hash dump_text
  match cache_lookup st.dump_cache dump_hash with
  | some results =>
    if results.new_tasks == 0 then
      let r := send_voice env st "No tasks could be extracted from your input" 0
      (pop_state r.1 user_id, { sends := [r.2], parse_calls := 0 })
    else
      let r := send_voice env st (dump_summary_text results) 0
      (pop_state r.1 user_id, { sends := [r.2], parse_calls := 0 })
  | none =>
    let r0 := send_voice env st "Processing tasks" 0
    let st := r0.1
    let parse := oracle.parse_task_dump dump_text
    match process_dump_with_cost st.store parse.1 parse.2 with
    | (Except.ok (results, openai_cost), store) =>
      let st := { st with store := store }
      let st := { st with dump_cache := cache_insert st.dump_cache dump_hash results }
      if results.new_tasks == 0 then
        let r := send_voice env st
          "No tasks could be extracted from your input" openai_cost
        (pop_state r.1 user_id, { sends := [r0.2, r.2], parse_calls := 1 })
      else
        let r := send_voice env st (dump_summary_text results) openai_cost
        (pop_state r.1 user_id, { sends := [r0.2, r.2], parse_calls := 1 })
    | (Except.error _, store) =>
      let st := { st with store := store }
      let r := send_voice env st "Error processing tasks" 0
      (pop_state r.1 user_id, { sends := [r0.2, r.2], parse_calls := 1 })

/-- process_tts_text (telegram.py lines 277-285): speak the text, then the
finally block clears the user state. -/
def process_tts_text (env : Env) (st : BotState) (user_id : Int)
    (text : String) : BotState × StepOut :=
  let r := send_voice env st text 0
  (pop_state r.1 user_id, { sends := [r.2], parse_calls := 0 })

/-- TelegramBot.handle_message (telegram.py lines 287-350). admin_user_id
models ADMIN_USER_ID, which telegram.py imports from common.config where
this snapshot does not define it; it stays a parameter, the single
authorized identity of the specification. The authorization check runs
before any state is read: other senders are dropped silently, with no
response, no conversation-state change and no store access. Authorized
messages are dispatched on the recorded conversation state first, then on
the slash command. -/
def handle_message (env : Env) (oracle : Oracle) (admin_user_id : Int)
    (st : BotState) (_chat_id user_id : Int) (text : String) :
    BotState × StepOut :=
  if user_id != admin_user_id then (st, { sends := [], parse_calls := 0 })
  else
    match state_lookup st.user_states user_id with
    | some "waiting_for_dump" => telegram_process_dump env oracle st user_id text
    | some "waiting_for_tts" => process_tts_text env st user_id text
    | _ =>
      if text.startsWith "/" then
        let parts := py_split_first text
        let command := py_lower parts.1
        let args := parts.2
        if command == "/start" then
          let r := send_voice env st
            ("Task manager ready. Use slash dump to add tasks, slash task " ++
              "for next task, slash done to complete") 0
          (r.1, { sends := [r.2], parse_calls := 0 })
        else if command == "/dump" then handle_dump_command env st user_id
        else if command == "/tasks" then handle_tasks_command env st
        else if command == "/task" then
          if !(args == "") && py_isdigit args then
            handle_task_command env st (py_int args)
          else handle_task_command env st 1
        else if command == "/done" then handle_done_command env st
        else if command == "/clear" then handle_clear_command env st
        else if command == "/tts" then handle_tts_command st user_id
        else
          let r := send_voice env st "Unknown command" 0
          (r.1, { sends := [r.2], parse_calls := 0 })
      else
        let r := send_voice env st "Use slash commands" 0
        (r.1, { sends := [r.2], parse_calls := 0 })

/-- Sequential processing of a message batch, as the polling loop dispatches
arrivals in order. -/
def handle_messages (env : Env) (oracle : Oracle) (admin_user_id : Int)
    (st : BotState) : List (Int × Int × String) → BotState
  | [] => st
  | m :: ms =>
    handle_messages env oracle admin_user_id
      (handle_message env oracle admin_user_id st m.1 m.2.1 m.2.2).1 ms

/-! ## Sample data used by the closed witness theorems -/

/-- A fixed external world: no cached audio file exists on disk, delivery
would succeed, the clock reads 10 and the next Execution key is 1. -/
def env0 : Env :=
  { file_exists := fun _ => false, deliver_ok := fun _ => true,
    now := 10, next_exec_id := 1 }

/-- An oracle whose parse step yields one candidate at cost 3. -/
def oracle1 : Oracle :=
  { parse_task_dump := fun _ => ([{ content := "buy milk" }], 3) }

/-- The bot state at process start: empty store, no conversation states,
empty caches. -/
def bot0 : BotState :=
  { store := { tasks := [], micro_units := [], executions := [] },
    user_states := [], tts_cache := [], dump_cache := [] }

/-- Sample store: two live tasks with a pending unit each and one completed
high-priority task whose unit must never be selected. -/
def sample_store : Store :=
  { tasks :=
      [{ id := 1, content := "buy milk", status := "pending", priority := 80 },
       { id := 2, content := "call mom", status := "active", priority := 40 },
       { id := 3, content := "shipped", status := "complete", priority := 95 }],
    micro_units :=
      [{ id := 1, task_id := 1, description := "buy milk",
         sequence_order := 1, status := "pending" },
       { id := 2, task_id := 2, description := "call mom",
         sequence_order := 1, status := "pending" },
       { id := 3, task_id := 3, description := "box it",
         sequence_order := 1, status := "pending" }],
    executions := [] }

/-- The unit get_next_action selects from sample_store. -/
def sample_unit : MicroUnit :=
  { id := 1, task_id := 1, description := "buy milk",
    sequence_order := 1, status := "pending" }

/-! ## Claims -/

theorem task_eligible_iff (t : Task) :
    task_eligible t = true ↔ (t.status = "pending" ∨ t.status = "active") := by
  simp [task_eligible]

/-- C1: get_next_action returns, among the micro-units with status pending
whose owning task has status pending or active, one whose ORDER BY key
(negated task priority, sequence_order) is lexicographically minimal, so
the highest task priority wins and sequence_order breaks ties; it returns
the none sentinel exactly when no such unit exists; and it never returns a
unit whose owning task is complete or archived. -/
theorem C1_get_next_action_selects_min (s : Store) :
    ((get_next_action s).1 = none ↔
      ∀ u ∈ s.micro_units, u.status = "pending" →
        ∀ t, find_task s u.task_id = some t →
          t.status ≠ "pending" ∧ t.status ≠ "active") ∧
    (∀ u, (get_next_action s).1 = some u →
      u ∈ s.micro_units ∧ u.status = "pending" ∧
      ∃ t, find_task s u.task_id = some t ∧
        (t.status = "pending" ∨ t.status = "active") ∧
        t.status ≠ "complete" ∧ t.status ≠ "archived" ∧
        ∀ v ∈ s.micro_units, v.status = "pending" →
          ∀ t2, find_task s v.task_id = some t2 →
            (t2.status = "pending" ∨ t2.status = "active") →
            ¬ lexLt (order_key t2 v) (order_key t u)) := by
  constructor
  · unfold get_next_action
    rw [Option.map_eq_none', min_row_eq_none_iff]
    constructor
    · intro hnil u hu hp t hft
      constructor <;> intro hstat
      all_goals {
        have hel : task_eligible t = true :=
          (task_eligible_iff t).mpr (by rw [hstat]; simp)
        have hmem : (u, order_key t u) ∈ eligible_rows s :=
          (mem_eligible_rows s u (order_key t u)).mpr ⟨hu, hp, t, hft, hel, rfl⟩
        rw [hnil] at hmem
        exact absurd hmem (List.not_mem_nil _)
      }
    · intro h
      cases he : eligible_rows s with
      | nil => rfl
      | cons x xs =>
        exfalso
        have hx : (x.1, x.2) ∈ eligible_rows s := by
          rw [he]; exact List.mem_cons_self x xs
        rw [mem_eligible_rows] at hx
        obtain ⟨hu, hp, t, hft, hel, _⟩ := hx
        have hne := h x.1 hu hp t hft
        rw [task_eligible_iff] at hel
        rcases hel with hel | hel
        · exact hne.1 hel
        · exact hne.2 hel
  · intro u hres
    unfold get_next_action at hres
    cases hm : min_row (eligible_rows s) with
    | none => rw [hm] at hres; exact absurd hres (by simp)
    | some x =>
      rw [hm] at hres
      have hxu : x.1 = u := by simpa using hres
      have hmem := min_row_mem hm
      have hx : (x.1, x.2) ∈ eligible_rows s := hmem
      rw [mem_eligible_rows] at hx
      obtain ⟨hu, hp, t, hft, hel, hk⟩ := hx
      rw [hxu] at hu hp hft hk
      have hpa := (task_eligible_iff t).mp hel
      refine ⟨hu, hp, t, hft, hpa, ?_, ?_, ?_⟩
      · rcases hpa with h | h <;> · rw [h]; decide
      · rcases hpa with h | h <;> · rw [h]; decide
      · intro v hv hvp t2 hft2 hel2
        have hvmem : (v, order_key t2 v) ∈ eligible_rows s :=
          (mem_eligible_rows s v (order_key t2 v)).mpr
            ⟨hv, hvp, t2, hft2, (task_eligible_iff t2).mpr hel2, rfl⟩
        have hmin := min_row_minimal hm (v, order_key t2 v) hvmem
        rw [hk] at hmin
        exact hmin

/-- C1 witness: on sample_store the selection is the pending unit of the
priority-80 pending task, not the unit of the priority-95 completed task. -/
theorem C1_witness :
    (get_next_action sample_store).1 = some sample_unit ∧
    sample_unit.status = "pending" ∧
    (∃ t, find_task sample_store sample_unit.task_id = some t ∧
      (t.status = "pending" ∨ t.status = "active")) := by
  have h := (C1_get_next_action_selects_min sample_store).2 sample_unit
    (by decide)
  obtain ⟨_, hp, t, hft, hpa, _⟩ := h
  exact ⟨by decide, hp, t, hft, hpa⟩

/-- C9: get_next_action is read-only: the store it returns is the store it
was given, so no task, micro-unit or execution row and no status field is
changed by selection. -/
theorem C9_get_next_action_readonly (s : Store) :
    (get_next_action s).2 = s ∧
    (get_next_action s).2.tasks = s.tasks ∧
    (get_next_action s).2.micro_units = s.micro_units ∧
    (get_next_action s).2.executions = s.executions :=
  ⟨rfl, rfl, rfl, rfl⟩

theorem start_micro_unit_eq_not_found {s : Store} {id0 : Nat}
    (h : find_micro_unit s id0 = none) :
    start_micro_unit s id0 = (Except.error StartError.notFound, s) := by
  unfold start_micro_unit; rw [h]

theorem start_micro_unit_eq_invalid {s : Store} {id0 : Nat} {u : MicroUnit}
    (hu : find_micro_unit s id0 = some u) (hne : u.status ≠ "pending") :
    start_micro_unit s id0 = (Except.error StartError.invalidState, s) := by
  unfold start_micro_unit; rw [hu]
  exact if_pos (by simpa using hne)

theorem start_micro_unit_eq_ok {s : Store} {id0 : Nat} {u : MicroUnit}
    (hu : find_micro_unit s id0 = some u) (hpend : u.status = "pending") :
    start_micro_unit s id0 = (Except.ok (), start_update s id0 u) := by
  unfold start_micro_unit; rw [hu]
  exact if_neg (by simp [hpend])

theorem find_micro_unit_start_update (s : Store) (id0 : Nat) (u : MicroUnit) :
    find_micro_unit (start_update s id0 u) id0 =
      (find_micro_unit s id0).map (fun v => { v with status := "active" }) := by
  unfold find_micro_unit start_update
  exact find?_map_ite (fun v => v.id == id0)
    (fun v => { v with status := "active" }) s.micro_units
    (fun v hv => by
      show (({ v with status := "active" } : MicroUnit).id == id0) = true
      exact hv)

theorem find_task_start_update (s : Store) (id0 : Nat) (u : MicroUnit) :
    find_task (start_update s id0 u) u.task_id =
      (find_task s u.task_id).map (fun t => { t with status := "active" }) := by
  unfold find_task start_update
  exact find?_map_ite (fun t => t.id == u.task_id)
    (fun t => { t with status := "active" }) s.tasks
    (fun t ht => by
      show (({ t with status := "active" } : Task).id == u.task_id) = true
      exact ht)

/-- C4: start_micro_unit succeeds exactly on a pending unit, making the unit
and its owning task active; an unknown id fails with the not-found error, a
non-pending unit with the invalid-state error, and a second start on the
same initially pending unit fails with the invalid-state error leaving the
store exactly as the first call left it. -/
theorem C4_start_micro_unit_spec (s : Store) (id0 : Nat) :
    (find_micro_unit s id0 = none →
      start_micro_unit s id0 = (Except.error StartError.notFound, s)) ∧
    (∀ u, find_micro_unit s id0 = some u → u.status ≠ "pending" →
      start_micro_unit s id0 = (Except.error StartError.invalidState, s)) ∧
    (∀ u, find_micro_unit s id0 = some u → u.status = "pending" →
      (start_micro_unit s id0).1 = Except.ok () ∧
      (∀ v, find_micro_unit (start_micro_unit s id0).2 id0 = some v →
        v.status = "active") ∧
      (∀ t, find_task (start_micro_unit s id0).2 u.task_id = some t →
        t.status = "active") ∧
      start_micro_unit (start_micro_unit s id0).2 id0 =
        (Except.error StartError.invalidState, (start_micro_unit s id0).2)) := by
  refine ⟨fun h => start_micro_unit_eq_not_found h,
    fun u hu hne => start_micro_unit_eq_invalid hu hne, ?_⟩
  intro u hu hpend
  have heq := start_micro_unit_eq_ok hu hpend
  have hfind2 :
      find_micro_unit (start_micro_unit s id0).2 id0 =
        some { u with status := "active" } := by
    rw [heq]
    rw [find_micro_unit_start_update, hu]
    rfl
  refine ⟨by rw [heq], ?_, ?_, ?_⟩
  · intro v hv
    rw [hfind2] at hv
    have hvu : { u with status := "active" } = v := Option.some.inj hv
    rw [← hvu]
  · intro t ht
    rw [heq] at ht
    rw [find_task_start_update] at ht
    cases hft : find_task s u.task_id with
    | none => rw [hft] at ht; exact absurd ht (by simp)
    | some t0 =>
      rw [hft] at ht
      have htt : { t0 with status := "active" } = t := Option.some.inj ht
      rw [← htt]
  · exact start_micro_unit_eq_invalid hfind2 (by simp)

/-- C4 witness: starting the pending sample unit succeeds and makes it and
its task active; the immediate second start fails with the invalid-state
error and changes nothing. -/
theorem C4_witness :
    find_micro_unit sample_store 1 = some sample_unit ∧
    (start_micro_unit sample_store 1).1 = Except.ok () ∧
    start_micro_unit (start_micro_unit sample_store 1).2 1 =
      (Except.error StartError.invalidState, (start_micro_unit sample_store 1).2) := by
  have h := (C4_start_micro_unit_spec sample_store 1).2.2 sample_unit
    (by decide) (by decide)
  exact ⟨by decide, h.1, h.2.2.2⟩

theorem complete_micro_unit_eq {s : Store} {id0 : Nat} {u : MicroUnit}
    (hu : find_micro_unit s id0 = some u) (success : Bool)
    (am : Option Int) (nts : Option String) (now eid : Nat) :
    complete_micro_unit s id0 success am nts now eid =
      complete_update s id0 u success am nts now eid := by
  unfold complete_micro_unit; rw [hu]

theorem find_micro_unit_complete_update (s : Store) (id0 : Nat)
    (u : MicroUnit) (success : Bool) (am : Option Int) (nts : Option String)
    (now eid : Nat) :
    find_micro_unit (complete_update s id0 u success am nts now eid) id0 =
      (find_micro_unit s id0).map (fun v => mark_complete v now am) := by
  unfold find_micro_unit complete_update
  exact find?_map_ite (fun v => v.id == id0)
    (fun v => mark_complete v now am) s.micro_units
    (fun v hv => by
      show ((mark_complete v now am).id == id0) = true
      exact hv)

/-- C3: for an existing unit id, every completion call sets the unit status
to complete whatever the success flag is, appends exactly one new Execution
row while leaving every previously logged row in place, and a repeated call
on the already-completed unit appends one more row: completion is not
idempotent and Execution rows are never mutated. -/
theorem C3_complete_appends_execution (s : Store) (id0 : Nat)
    (success success2 : Bool) (am am2 : Option Int) (nts nts2 : Option String)
    (now now2 eid eid2 : Nat) (u : MicroUnit)
    (hu : find_micro_unit s id0 = some u) :
    (complete_micro_unit s id0 success am nts now eid).executions =
      s.executions ++
        [{ id := eid, micro_unit_id := id0, started_at := now,
           completed_at := some now, success := success, notes := nts }] ∧
    (∀ v, find_micro_unit (complete_micro_unit s id0 success am nts now eid)
        id0 = some v → v.status = "complete") ∧
    (complete_micro_unit (complete_micro_unit s id0 success am nts now eid)
        id0 success2 am2 nts2 now2 eid2).executions =
      s.executions ++
        [{ id := eid, micro_unit_id := id0, started_at := now,
           completed_at := some now, success := success, notes := nts }] ++
        [{ id := eid2, micro_unit_id := id0, started_at := now2,
           completed_at := some now2, success := success2, notes := nts2 }] := by
  have heq := complete_micro_unit_eq hu success am nts now eid
  have hfind2 :
      find_micro_unit (complete_micro_unit s id0 success am nts now eid) id0 =
        some (mark_complete u now am) := by
    rw [heq, find_micro_unit_complete_update, hu]
    rfl
  have heq2 := complete_micro_unit_eq hfind2 success2 am2 nts2 now2 eid2
  refine ⟨by rw [heq]; rfl, ?_, ?_⟩
  · intro v hv
    rw [hfind2] at hv
    have hvu : mark_complete u now am = v := Option.some.inj hv
    rw [← hvu]
    rfl
  · rw [heq2]
    show (complete_micro_unit s id0 success am nts now eid).executions ++ _ = _
    rw [heq]
    show s.executions ++ _ ++ _ = _
    rfl

/-- C3 witness: completing the sample unit with success := false still marks
it complete and logs one row; the repeated call logs a second row. -/
theorem C3_witness :
    find_micro_unit sample_store 1 = some sample_unit ∧
    (complete_micro_unit sample_store 1 false none none 10 1).executions =
      [{ id := 1, micro_unit_id := 1, started_at := 10,
         completed_at := some 10, success := false, notes := none }] ∧
    (complete_micro_unit (complete_micro_unit sample_store 1 false none none
        10 1) 1 true none none 11 2).executions =
      [{ id := 1, micro_unit_id := 1, started_at := 10,
         completed_at := some 10, success := false, notes := none },
       { id := 2, micro_unit_id := 1, started_at := 11,
         completed_at := some 11, success := true, notes := none }] := by
  have h := C3_complete_appends_execution sample_store 1 false true none none
    none none 10 11 1 2 sample_unit (by decide)
  exact ⟨by decide, h.1, h.2.2⟩

/-- The store of the C2 scenario: one active task whose only micro-unit is
still pending, so that unit is the last remaining pending unit. -/
def c2_store : Store :=
  { tasks :=
      [{ id := 1, content := "write report", status := "active",
         priority := 50 }],
    micro_units :=
      [{ id := 1, task_id := 1, description := "draft", sequence_order := 1,
         status := "pending" }],
    executions := [] }

/-- C2: completing the last remaining pending micro-unit of task 1 marks the
unit complete and leaves no pending unit of the task, yet the task status
stays active instead of becoming complete: the remaining-pending COUNT runs
before the in-memory status change is flushed (the session has
autoflush=False), still counts the unit being completed, gets one instead of
zero and skips the cascade. -/
theorem C2_cascade_skipped_on_last_pending_unit :
    (c2_store.micro_units.countP (fun v =>
      v.task_id == 1 && v.status == "pending")) = 1 ∧
    find_micro_unit (complete_micro_unit c2_store 1 true none none 10 1) 1 =
      some { id := 1, task_id := 1, description := "draft",
             sequence_order := 1, status := "complete",
             completed_at := some 10 } ∧
    ((complete_micro_unit c2_store 1 true none none 10 1).micro_units.countP
      (fun v => v.task_id == 1 && v.status == "pending")) = 0 ∧
    find_task (complete_micro_unit c2_store 1 true none none 10 1) 1 =
      some { id := 1, content := "write report", status := "active",
             priority := 50 } := by
  refine ⟨by decide, by decide, by decide, by decide⟩

/-- C5: with at least one parsed candidate, process_dump_with_cost hits the
missing attribute _create_task_with_cost: TaskManager defines only
_create_task and _decompose_task, so the call raises AttributeError before
any Task or MicroUnit is persisted and the store is unchanged; the
orchestrator catches the error, leaves the dump cache untouched and emits
the error utterance after the processing announcement. -/
theorem C5_process_dump_with_cost_raises (s : Store) (parsed : List TaskData)
    (cost : Rat) (h : parsed ≠ []) :
    ("_create_task_with_cost" ∉ task_manager_method_names ∧
     "_decompose_task_with_cost" ∉ task_manager_method_names ∧
     "_create_task" ∈ task_manager_method_names ∧
     "_decompose_task" ∈ task_manager_method_names) ∧
    process_dump_with_cost s parsed cost =
      (Except.error (PyError.attributeError "_create_task_with_cost"), s) ∧
    (∀ (env : Env) (oracle : Oracle) (st : BotState) (user_id : Int)
        (dump : String),
      cache_lookup st.dump_cache (get_text_hash dump) = none →
      oracle.parse_task_dump dump = (parsed, cost) →
      (telegram_process_dump env oracle st user_id dump).1.store = st.store ∧
      (telegram_process_dump env oracle st user_id dump).1.dump_cache =
        st.dump_cache ∧
      ((telegram_process_dump env oracle st user_id dump).2.sends.map
        Prod.fst) = ["Processing tasks", "Error processing tasks"]) := by
  refine ⟨by decide, ?_, ?_⟩
  · cases parsed with
    | nil => exact absurd rfl h
    | cons hd tl => rfl
  · intro env oracle st user_id dump hmiss horacle
    cases parsed with
    | nil => exact absurd rfl h
    | cons hd tl =>
      simp only [telegram_process_dump, hmiss, horacle]
      exact ⟨rfl, rfl, rfl⟩

/-- C5 witness: a one-candidate parse on the empty store errors with the
missing-attribute exception and persists nothing. -/
theorem C5_witness :
    ([{ content := "buy milk" }] : List TaskData) ≠ [] ∧
    process_dump_with_cost bot0.store [{ content := "buy milk" }] 3 =
      (Except.error (PyError.attributeError "_create_task_with_cost"),
        bot0.store) := by
  refine ⟨by decide, ?_⟩
  exact (C5_process_dump_with_cost_raises bot0.store
    [{ content := "buy milk" }] 3 (by decide)).2.1

/-- C10: send_voice_message can never deliver after a synthesis-cache miss:
the miss path calls the FishClient attribute text_to_mp3_with_cost, which
the class does not define, so the AttributeError is caught, False is
returned and the cache entry is never written; a cached path whose file is
gone takes the same path; hence from the empty cache every call returns
False and the cache stays empty. -/
theorem C10_send_voice_message_always_fails :
    ("text_to_mp3_with_cost" ∉ fish_client_method_names ∧
     "text_to_mp3" ∈ fish_client_method_names) ∧
    (∀ (env : Env) (tts : TTSCache) (text : String),
      cache_lookup tts (tts_cache_key text) = none →
      send_voice_message env tts text = (false, tts)) ∧
    (∀ (env : Env) (tts : TTSCache) (text : String) (mp3_path : String),
      cache_lookup tts (tts_cache_key text) = some mp3_path →
      env.file_exists mp3_path = false →
      send_voice_message env tts text = (false, tts)) ∧
    (∀ (env : Env) (text : String),
      send_voice_message env [] text = (false, [])) := by
  have h2 : ∀ (env : Env) (tts : TTSCache) (text : String),
      cache_lookup tts (tts_cache_key text) = none →
      send_voice_message env tts text = (false, tts) := by
    intro env tts text hmiss
    have hmiss2 : cache_lookup tts (get_text_hash (preprocess_text text)) =
        none := hmiss
    by_cases hc : (preprocess_text text == "") = true
    · simp only [send_voice_message, hc, if_true]
    · simp only [send_voice_message, hc, if_false, hmiss2,
        fish_text_to_mp3_with_cost]
      rfl
  have h3 : ∀ (env : Env) (tts : TTSCache) (text : String)
      (mp3_path : String),
      cache_lookup tts (tts_cache_key text) = some mp3_path →
      env.file_exists mp3_path = false →
      send_voice_message env tts text = (false, tts) := by
    intro env tts text mp3_path hhit hgone
    have hhit2 : cache_lookup tts (get_text_hash (preprocess_text text)) =
        some mp3_path := hhit
    by_cases hc : (preprocess_text text == "") = true
    · simp only [send_voice_message, hc, if_true]
    · simp only [send_voice_message, hc, if_false, hhit2, hgone,
        fish_text_to_mp3_with_cost]
      rfl
  exact ⟨by decide, h2, h3, fun env text => h2 env [] text rfl⟩

/-- C10 witness: from the empty cache, the call on a concrete text misses
and returns False with the cache still empty. -/
theorem C10_witness :
    cache_lookup ([] : TTSCache) (tts_cache_key "hello") = none ∧
    send_voice_message env0 [] "hello" = (false, []) :=
  ⟨rfl, (C10_send_voice_message_always_fails).2.1 env0 [] "hello" rfl⟩

/-- The bot state after the first processing of the dump that parses to one
candidate: the pipeline raised, so nothing was cached. -/
def c6_state1 : BotState :=
  (telegram_process_dump env0 oracle1 bot0 1 "buy milk").1

/-- C6: with a dump that parses to one candidate, the first call runs the
parse oracle, the pipeline raises on the missing method and nothing is
cached; the identical second call therefore misses the cache, runs the
parse oracle again at full cost and fails the same way, against the claim
that the second identical call is a zero-cost cache hit returning the same
counts. -/
theorem C6_second_identical_call_misses_cache :
    (telegram_process_dump env0 oracle1 bot0 1 "buy milk").2.parse_calls
      = 1 ∧
    c6_state1.dump_cache = [] ∧
    (telegram_process_dump env0 oracle1 c6_state1 1 "buy milk").2.parse_calls
      = 1 ∧
    (telegram_process_dump env0 oracle1 c6_state1 1 "buy milk").1.dump_cache
      = [] ∧
    ((telegram_process_dump env0 oracle1 c6_state1 1 "buy milk").2.sends.map
      Prod.fst) = ["Processing tasks", "Error processing tasks"] := by
  refine ⟨by decide, by decide, by decide, by decide, by decide⟩

/-- An oracle whose parse step yields no candidate at cost 1: the only
pipeline run that completes without raising in this code. -/
def c7_oracle : Oracle := { parse_task_dump := fun _ => ([], 1) }

/-- The bot state after processing the dump whose parse is empty: its
results dictionary is cached under the digest of the raw text. -/
def c7_state1 : BotState :=
  (telegram_process_dump env0 c7_oracle bot0 1 "task one").1

/-- C7 counterexample: the two dumps differ only in whitespace and
normalize identically, yet their decomposition-cache keys differ because
that key hashes the raw text; concretely, after a first call cached the
result for one spelling, repeating the identical spelling skips the oracle
but the cosmetic variant runs the parse again. -/
theorem C7_counterexample :
    preprocess_text "task  one" = preprocess_text "task one" ∧
    dump_cache_key "task  one" ≠ dump_cache_key "task one" ∧
    c7_state1.dump_cache ≠ [] ∧
    (telegram_process_dump env0 c7_oracle c7_state1 1 "task one").2.parse_calls
      = 0 ∧
    (telegram_process_dump env0 c7_oracle c7_state1 1 "task  one").2.parse_calls
      = 1 := by
  refine ⟨by decide, by decide, by decide, by decide, by decide⟩

/-- C7 amended: the synthesis-cache key is the digest of the normalized
text, so texts with the same normalization share a key and
send_voice_message treats them identically; the decomposition-cache key is
the digest of the raw dump text with no normalization, so cosmetic variants
produce different keys there. -/
theorem C7_amended_cache_keys (t1 t2 : String)
    (h : preprocess_text t1 = preprocess_text t2) :
    tts_cache_key t1 = tts_cache_key t2 ∧
    (∀ (env : Env) (tts : TTSCache),
      send_voice_message env tts t1 = send_voice_message env tts t2) ∧
    tts_cache_key t1 = get_text_hash (preprocess_text t1) ∧
    dump_cache_key t1 = get_text_hash t1 := by
  refine ⟨?_, ?_, rfl, rfl⟩
  · unfold tts_cache_key
    rw [h]
  · intro env tts
    unfold send_voice_message
    rw [h]

/-- C7 witness: a concrete cosmetic pair shares its synthesis-cache key. -/
theorem C7_witness :
    preprocess_text "hi  there" = preprocess_text "hi there" ∧
    tts_cache_key "hi  there" = tts_cache_key "hi there" := by
  have h : preprocess_text "hi  there" = preprocess_text "hi there" := by
    decide
  exact ⟨h, (C7_amended_cache_keys _ _ h).1⟩

/-- C8: handle_message drops any message whose sender is not the authorized
identity before reading or writing anything: the state is returned
untouched and nothing is sent; consequently a message batch produces the
same final state as the batch with all unauthorized messages removed. -/
theorem C8_unauthorized_sender_no_effect (env : Env) (oracle : Oracle)
    (admin_user_id : Int) (st : BotState) :
    (∀ (chat_id user_id : Int) (text : String), user_id ≠ admin_user_id →
      handle_message env oracle admin_user_id st chat_id user_id text =
        (st, { sends := [], parse_calls := 0 })) ∧
    (∀ msgs, handle_messages env oracle admin_user_id st msgs =
      handle_messages env oracle admin_user_id st
        (msgs.filter (fun m => m.2.1 == admin_user_id))) := by
  have h1 : ∀ (st2 : BotState) (chat_id user_id : Int) (text : String),
      user_id ≠ admin_user_id →
      handle_message env oracle admin_user_id st2 chat_id user_id text =
        (st2, { sends := [], parse_calls := 0 }) := by
    intro st2 chat_id user_id text h
    have hb : (user_id != admin_user_id) = true := by simpa using h
    unfold handle_message
    rw [if_pos hb]
  have hfil : ∀ (msgs : List (Int × Int × String)) (st2 : BotState),
      handle_messages env oracle admin_user_id st2 msgs =
        handle_messages env oracle admin_user_id st2
          (msgs.filter (fun m => m.2.1 == admin_user_id)) := by
    intro msgs
    induction msgs with
    | nil => intro st2; rfl
    | cons m ms ih =>
      intro st2
      by_cases hm : (m.2.1 == admin_user_id) = true
      · rw [List.filter_cons, if_pos hm]
        simp only [handle_messages]
        exact ih _
      · rw [List.filter_cons, if_neg hm]
        simp only [handle_messages]
        rw [h1 st2 m.1 m.2.1 m.2.2 (by simpa using hm)]
        exact ih st2
  exact ⟨h1 st, fun msgs => hfil msgs st⟩

/-- C8 witness: a /dump command from sender 2 under authorized identity 1
leaves the initial bot state untouched and sends nothing. -/
theorem C8_witness :
    (2 : Int) ≠ 1 ∧
    handle_message env0 oracle1 1 bot0 5 2 "/dump" =
      (bot0, { sends := [], parse_calls := 0 }) :=
  ⟨by decide,
    (C8_unauthorized_sender_no_effect env0 oracle1 1 bot0).1 5 2 "/dump"
      (by decide)⟩

end Dexter
